import Mathlib

set_option linter.unusedVariables false

/-!
Shallow embedding of the gracekill orchestrator (src/src/main.rs).

The OS signal primitive is modelled as an oracle: at each instant `t`
(a discrete tick of the run), `env t pid` is the result the POSIX
`kill` call would report for process id `pid`.  Dispatching a signal
and probing liveness both consult this oracle; what distinguishes them
in the source is only how the result is classified, which is exactly
what the embedded functions reproduce.

Time indexing of one run: the cooperative (SIGTERM) dispatch happens at
tick 0, the poll-loop probes at ticks 1, 2, ..., the pre-SIGKILL
liveness re-check at tick `loopEnd + 1`, and the SIGKILL dispatch at
tick `loopEnd + 2`.  The sleep-based loop bound `start.elapsed() <
grace_period` is modelled by a fuel argument `graceTicks`: the number
of sleep/poll iterations the deadline allows.  A grace period of zero
seconds makes the condition `elapsed < 0` false at its very first
check, i.e. `graceTicks = 0`.
-/

namespace Gracekill

/-- Result of one OS `kill` call, as seen by the process: success, or
one of the errno values the source distinguishes. -/
inductive KillResult where
  | ok : KillResult
  | esrch : KillResult
  | eperm : KillResult
  | other : String → KillResult
deriving DecidableEq

/-- Signal kinds the program sends (SIGTERM for cooperative stop,
SIGKILL for forceful stop). -/
inductive Signal where
  | term : Signal
  | kill : Signal
deriving DecidableEq

/-- Largest pid representable as an `i32`; `i32::try_from(pid)` on a
`u32` pid fails exactly above this bound. -/
def i32Max : Nat := 2147483647

/-- Oracle for one OS call at a single instant: pid to kill-result. -/
def Os : Type := Nat → KillResult

/-- Oracle over the whole run: tick to single-instant oracle. -/
def Env : Type := Nat → Nat → KillResult

/-- Embedding of `send_signal`: the i32 range check happens before any
OS call; OS errors are classified by errno, with the raw error text
preserved in the `other` case. -/
def send_signal (os : Os) (pid : Nat) (signal : Signal) : Except String Unit :=
  if pid ≤ i32Max then
    match os pid with
    | KillResult.ok => Except.ok ()
    | KillResult.esrch => Except.error "Process not found"
    | KillResult.eperm => Except.error "Permission denied"
    | KillResult.other e => Except.error ("Failed to send signal: " ++ e)
  else
    Except.error "PID too large for system"

/-- Bool view of a dispatch outcome: `true` iff the signal was delivered. -/
def isDelivered : Except String Unit → Bool
  | Except.ok _ => true
  | Except.error _ => false

/-- Embedding of `is_process_running`: out-of-range pids are reported
as not running without an OS call; otherwise the probe is `kill(pid,
None)` and the result is `is_ok()` — every error, whatever its errno,
makes the probe report "not running". -/
def is_process_running (os : Os) (pid : Nat) : Bool :=
  if pid ≤ i32Max then
    match os pid with
    | KillResult.ok => true
    | _ => false
  else
    false

/-- Modelled from the spec: the liveness probe §4.1 describes — a
degenerate dispatch sharing `send_signal`'s classification, where
success means "still exists" and only a NotFound classification means
"has exited" (any other error is not interpreted as exited). -/
def is_running_specModel (os : Os) (pid : Nat) : Bool :=
  match send_signal os pid Signal.term with
  | Except.ok _ => true
  | Except.error e => decide (e ≠ "Process not found")

/-- Embedding of `send_signal_to_all`: returns, in order, the pids the
signal was delivered to; failures are logged and skipped. -/
def send_signal_to_all (os : Os) (pids : List Nat) (signal : Signal) : List Nat :=
  pids.filter (fun pid => isDelivered (send_signal os pid signal))

/-- Pids `send_signal_to_all` performs an OS call for: everything the
range check lets through (one call per list entry, in order). -/
def send_signal_to_all_calls (pids : List Nat) : List Nat :=
  pids.filter (fun pid => decide (pid ≤ i32Max))

/-- One iteration of the poll loop's `retain`: keep exactly the pids
whose liveness probe at tick `t` reports them still running. -/
def pollTick (env : Env) (t : Nat) (rem : List Nat) : List Nat :=
  rem.filter (fun pid => is_process_running (env t) pid)

/-- Embedding of the grace-period poll loop (`while !remaining.is_empty()
&& start.elapsed() < grace_period`): each permitted iteration sleeps
(advancing the tick) and retains survivors.  Returns the final survivor
list together with the tick at which the loop exited. -/
def pollLoop (env : Env) : Nat → Nat → List Nat → List Nat × Nat
  | 0, t, rem => (rem, t)
  | fuel + 1, t, rem =>
    if rem.isEmpty then (rem, t)
    else pollLoop env fuel (t + 1) (pollTick env (t + 1) rem)

/-- Pids probed by the poll loop, tick by tick (a probe performs an OS
call exactly when the pid passes the i32 range check). -/
def pollLoopCalls (env : Env) : Nat → Nat → List Nat → List Nat
  | 0, _, _ => []
  | fuel + 1, t, rem =>
    if rem.isEmpty then []
    else rem.filter (fun pid => decide (pid ≤ i32Max))
      ++ pollLoopCalls env fuel (t + 1) (pollTick env (t + 1) rem)

/-- Observable outcome of one orchestration run of `main` after
argument parsing: the process exit status plus the intermediate
survivor lists the run computed. -/
structure RunResult where
  exitCode : Nat
  active_pids : List Nat
  remaining : List Nat
  loopEnd : Nat
  still_running : List Nat
  killDelivered : List Nat
deriving DecidableEq, Repr

/-- Embedding of `main` after `parse_args`: reject an empty pid list
(exit 1); SIGTERM everything (tick 0) and keep the delivered ones as
`active_pids` (exit 2 when empty); poll survivors up to the deadline;
exit 0 when all exited cooperatively; otherwise re-check liveness once
more, SIGKILL exactly the pids still reported alive, and exit 3 or 0
according to the escalation policy flag. -/
def run (env : Env) (pids : List Nat) (graceTicks : Nat)
    (exit_non_zero_if_sigkill_required : Bool) : RunResult :=
  if pids.isEmpty then
    { exitCode := 1, active_pids := [], remaining := [], loopEnd := 0,
      still_running := [], killDelivered := [] }
  else
    let active_pids := send_signal_to_all (env 0) pids Signal.term
    if active_pids.isEmpty then
      { exitCode := 2, active_pids := active_pids, remaining := [], loopEnd := 0,
        still_running := [], killDelivered := [] }
    else
      let pr := pollLoop env graceTicks 0 active_pids
      if pr.1.isEmpty then
        { exitCode := 0, active_pids := active_pids, remaining := pr.1,
          loopEnd := pr.2, still_running := [], killDelivered := [] }
      else
        let still_running :=
          pr.1.filter (fun pid => is_process_running (env (pr.2 + 1)) pid)
        let killDelivered :=
          send_signal_to_all (env (pr.2 + 2)) still_running Signal.kill
        { exitCode := if exit_non_zero_if_sigkill_required then 3 else 0,
          active_pids := active_pids, remaining := pr.1, loopEnd := pr.2,
          still_running := still_running, killDelivered := killDelivered }

/-- Pids forwarded to the OS signal primitive over a whole run, in call
order: the SIGTERM dispatches, the poll-loop probes, the pre-SIGKILL
re-check probes, and the SIGKILL dispatches. -/
def runCalls (env : Env) (pids : List Nat) (graceTicks : Nat) : List Nat :=
  if pids.isEmpty then []
  else
    send_signal_to_all_calls pids ++
      (let active_pids := send_signal_to_all (env 0) pids Signal.term
       if active_pids.isEmpty then []
       else
         pollLoopCalls env graceTicks 0 active_pids ++
           (let pr := pollLoop env graceTicks 0 active_pids
            if pr.1.isEmpty then []
            else
              pr.1.filter (fun pid => decide (pid ≤ i32Max)) ++
                send_signal_to_all_calls
                  (pr.1.filter (fun pid => is_process_running (env (pr.2 + 1)) pid))))

/-- Default grace period, in seconds (`DEFAULT_GRACE_SECONDS`). -/
def DEFAULT_GRACE_SECONDS : Nat := 25

/-- Largest value of a `u32` / a `u64`: Rust's `str::parse` for these
types fails above the bound. -/
def u32Bound : Nat := 4294967295

def u64Bound : Nat := 18446744073709551615

/-! Executable character-level models of the Rust `str` operations the
argument parser uses (prefix test, prefix removal, membership, split on
a separator, trim, digit parsing). -/

/-- Prefix test on character lists: second argument is the prefix. -/
def strStartsWithChars : List Char → List Char → Bool
  | _, [] => true
  | [], _ :: _ => false
  | a :: as, b :: bs => a = b && strStartsWithChars as bs

/-- Model of `str::starts_with`. -/
def strStartsWith (s pre : String) : Bool := strStartsWithChars s.data pre.data

/-- Model of `str::strip_prefix` after a successful prefix test: drop
the prefix's characters. -/
def strDrop (s : String) (n : Nat) : String := String.mk (s.data.drop n)

/-- Model of `str::contains` for a single character. -/
def strContains (s : String) (c : Char) : Bool := s.data.contains c

/-- Split a character list on commas; like `str::split(',')`, adjacent
separators and edge separators produce empty pieces. -/
def splitCommaChars : List Char → List (List Char)
  | [] => [[]]
  | c :: cs =>
    if c = ',' then [] :: splitCommaChars cs
    else
      match splitCommaChars cs with
      | [] => [[c]]
      | g :: gs => (c :: g) :: gs

/-- Model of `str::split(',')` collected to a list. -/
def strSplitComma (s : String) : List String := (splitCommaChars s.data).map String.mk

/-- Drop whitespace from both ends of a character list. -/
def trimChars (cs : List Char) : List Char :=
  ((cs.dropWhile Char.isWhitespace).reverse.dropWhile Char.isWhitespace).reverse

/-- Model of `str::trim`. -/
def strTrim (s : String) : String := String.mk (trimChars s.data)

/-- Accumulator pass of decimal parsing: fails at the first non-digit. -/
def digitsToNat : Nat → List Char → Option Nat
  | acc, [] => some acc
  | acc, c :: cs => if c.isDigit then digitsToNat (acc * 10 + (c.toNat - 48)) cs else none

/-- Decimal value of a string: at least one digit, digits only. -/
def strToNatQ (s : String) : Option Nat :=
  match s.data with
  | [] => none
  | cs => digitsToNat 0 cs

/-- Embedding of Rust's `str::parse` for an unsigned integer type with
maximum `bound`: an optional leading plus sign, then one or more ASCII
digits, and the value must fit the type. -/
def parseUint (bound : Nat) (s : String) : Option Nat :=
  let t := if strStartsWith s "+" then strDrop s 1 else s
  match strToNatQ t with
  | some n => if n ≤ bound then some n else none
  | none => none

/-- Embedding of `parse_and_validate_pid`: parse as `u32`, then reject
pid 0 before it can ever reach an OS call. -/
def parse_and_validate_pid (s : String) : Except String Nat :=
  match parseUint u32Bound s with
  | none => Except.error ("Invalid PID: " ++ s)
  | some 0 => Except.error "PID 0 not allowed (affects process group)"
  | some pid => Except.ok pid

/-- Pid substrings one positional argument yields: split on commas and
trim when a comma is present, otherwise the argument itself. -/
def parse_pid_arg (arg : String) : List String :=
  if strContains arg ',' then (strSplitComma arg).map strTrim else [arg]

/-- Inner loop of the pid branch of `parse_args`: validate each pid
string in order, appending to the accumulated list; the first invalid
one aborts the whole parse. -/
def parse_pid_strs (pids : List Nat) : List String → Except String (List Nat)
  | [] => Except.ok pids
  | s :: rest =>
    match parse_and_validate_pid s with
    | Except.ok pid => parse_pid_strs (pids ++ [pid]) rest
    | Except.error e => Except.error e

/-- Main loop of `parse_args` over the argument list, carrying the
accumulated pids, the grace seconds and the escalation-policy flag.
The leading `Nat` is structural fuel bounding the number of loop
iterations; one iteration consumes at least one argument, so any fuel
at least the list length (as `parse_args` supplies) never reaches the
fuel-exhausted arm on a non-empty list. -/
def parse_args_loop : Nat → List Nat → Nat → Bool → List String →
    Except String (List Nat × Nat × Bool)
  | _, pids, grace, flag, [] => Except.ok (pids, grace, flag)
  | 0, pids, grace, flag, _ :: _ => Except.ok (pids, grace, flag)
  | fuel + 1, pids, grace, flag, arg :: rest =>
    if arg = "-g" ∨ arg = "--grace-seconds" then
      match rest with
      | [] => Except.error "Missing value for grace-seconds"
      | v :: rest2 =>
        match parseUint u64Bound v with
        | some n => parse_args_loop fuel pids n flag rest2
        | none => Except.error ("Invalid grace-seconds value: " ++ v)
    else if strStartsWith arg "--grace-seconds=" then
      match parseUint u64Bound (strDrop arg 16) with
      | some n => parse_args_loop fuel pids n flag rest
      | none => Except.error ("Invalid grace-seconds value: " ++ strDrop arg 16)
    else if arg = "--exit-non-zero-if-sigkill-required" then
      parse_args_loop fuel pids grace true rest
    else if strStartsWith arg "-" then
      Except.error ("Unknown option: " ++ arg)
    else
      match parse_pid_strs pids (parse_pid_arg arg) with
      | Except.ok pids2 => parse_args_loop fuel pids2 grace flag rest
      | Except.error e => Except.error e

/-- Embedding of `parse_args`: fold the loop over the arguments
starting from no pids, the default grace period and the policy flag
off.  Returns (pids, grace seconds, escalation-policy flag). -/
def parse_args (args : List String) : Except String (List Nat × Nat × Bool) :=
  parse_args_loop args.length [] DEFAULT_GRACE_SECONDS false args

/-! Concrete oracles used to exercise the model on closed inputs. -/

/-- Oracle: every call succeeds (target exists and is signalable). -/
def envOk : Env := fun _ _ => KillResult.ok

/-- Oracle: every call fails with ESRCH (no such process). -/
def envDead : Env := fun _ _ => KillResult.esrch

/-- Oracle: calls succeed up to tick 1, then the process is gone —
the target survives the whole grace period but exits in the gap
between the last poll and the pre-SIGKILL re-check. -/
def envLateExit : Env := fun t _ => if t ≤ 1 then KillResult.ok else KillResult.esrch

/-- Oracle: pid 2 is never signalable (EPERM), everything else is alive. -/
def envPerm : Env := fun _ pid => if pid = 2 then KillResult.eperm else KillResult.ok

/-! Basic lemmas about the dispatcher and the poll loop. -/

theorem send_signal_to_all_subset {os : Os} {pids : List Nat} {signal : Signal}
    {p : Nat} (h : p ∈ send_signal_to_all os pids signal) : p ∈ pids :=
  (List.mem_filter.mp h).1

theorem send_signal_to_all_calls_subset {pids : List Nat} {p : Nat}
    (h : p ∈ send_signal_to_all_calls pids) : p ∈ pids :=
  (List.mem_filter.mp h).1

theorem pollTick_sublist (env : Env) (t : Nat) (rem : List Nat) :
    (pollTick env t rem).Sublist rem :=
  List.filter_sublist rem

theorem pollLoop_sublist (env : Env) :
    ∀ fuel t rem, ((pollLoop env fuel t rem).1).Sublist rem := by
  intro fuel
  induction fuel with
  | zero => intro t rem; exact List.Sublist.refl rem
  | succ n ih =>
    intro t rem
    by_cases h : rem.isEmpty
    · simp [pollLoop, h]
    · simp only [pollLoop, h, Bool.false_eq_true, if_false]
      exact (ih (t + 1) (pollTick env (t + 1) rem)).trans (pollTick_sublist env (t + 1) rem)

theorem pollLoop_time_le (env : Env) :
    ∀ fuel t rem, t ≤ (pollLoop env fuel t rem).2 := by
  intro fuel
  induction fuel with
  | zero => intro t rem; exact Nat.le_refl t
  | succ n ih =>
    intro t rem
    by_cases h : rem.isEmpty
    · simp [pollLoop, h]
    · simp only [pollLoop, h, Bool.false_eq_true, if_false]
      exact Nat.le_trans (Nat.le_succ t) (ih (t + 1) (pollTick env (t + 1) rem))

theorem pollLoop_time_ub (env : Env) :
    ∀ fuel t rem, (pollLoop env fuel t rem).2 ≤ t + fuel := by
  intro fuel
  induction fuel with
  | zero => intro t rem; simp [pollLoop]
  | succ n ih =>
    intro t rem
    by_cases h : rem.isEmpty
    · simp [pollLoop, h]
    · simp only [pollLoop, h, Bool.false_eq_true, if_false]
      have := ih (t + 1) (pollTick env (t + 1) rem)
      omega

theorem pollLoop_empty_or_deadline (env : Env) :
    ∀ fuel t rem, (pollLoop env fuel t rem).1 = [] ∨ (pollLoop env fuel t rem).2 = t + fuel := by
  intro fuel
  induction fuel with
  | zero => intro t rem; right; simp [pollLoop]
  | succ n ih =>
    intro t rem
    by_cases h : rem.isEmpty
    · left; simp only [pollLoop, h, if_true]; exact List.isEmpty_iff.mp h
    · simp only [pollLoop, h, Bool.false_eq_true, if_false]
      rcases ih (t + 1) (pollTick env (t + 1) rem) with h1 | h1
      · exact Or.inl h1
      · right; omega

theorem pollLoop_mem (env : Env) (p : Nat) :
    ∀ fuel t rem,
      p ∈ (pollLoop env fuel t rem).1 ↔
        p ∈ rem ∧ ∀ i, t < i → i ≤ (pollLoop env fuel t rem).2 →
          is_process_running (env i) p = true := by
  intro fuel
  induction fuel with
  | zero =>
    intro t rem
    simp only [pollLoop]
    constructor
    · intro h; exact ⟨h, fun i h1 h2 => absurd h2 (by omega)⟩
    · intro h; exact h.1
  | succ n ih =>
    intro t rem
    by_cases h : rem.isEmpty
    · have hnil : rem = [] := List.isEmpty_iff.mp h
      subst hnil
      simp [pollLoop]
    · simp only [pollLoop, h, Bool.false_eq_true, if_false]
      rw [ih (t + 1) (pollTick env (t + 1) rem)]
      have htle := pollLoop_time_le env n (t + 1) (pollTick env (t + 1) rem)
      constructor
      · rintro ⟨hmem, hall⟩
        have hp : p ∈ rem ∧ is_process_running (env (t + 1)) p = true := by
          simpa [pollTick, List.mem_filter] using hmem
        refine ⟨hp.1, fun i h1 h2 => ?_⟩
        rcases Nat.lt_or_ge (t + 1) i with hi | hi
        · exact hall i hi h2
        · have hieq : i = t + 1 := by omega
          rw [hieq]; exact hp.2
      · rintro ⟨hmem, hall⟩
        refine ⟨?_, fun i h1 h2 => hall i (by omega) h2⟩
        simp only [pollTick, List.mem_filter]
        exact ⟨hmem, hall (t + 1) (by omega) htle⟩

theorem pollLoopCalls_subset (env : Env) :
    ∀ fuel t rem p, p ∈ pollLoopCalls env fuel t rem → p ∈ rem := by
  intro fuel
  induction fuel with
  | zero => intro t rem p h; simp [pollLoopCalls] at h
  | succ n ih =>
    intro t rem p h
    by_cases he : rem.isEmpty
    · simp [pollLoopCalls, he] at h
    · simp only [pollLoopCalls, he, Bool.false_eq_true, if_false, List.mem_append] at h
      rcases h with h | h
      · exact (List.mem_filter.mp h).1
      · exact (pollTick_sublist env (t + 1) rem).subset (ih (t + 1) _ p h)

/-! Branch lemmas for `run`: one per exit path of `main`. -/

theorem run_branch_empty (env : Env) (g : Nat) (pol : Bool) {pids : List Nat}
    (h : pids.isEmpty = true) :
    run env pids g pol =
      { exitCode := 1, active_pids := [], remaining := [], loopEnd := 0,
        still_running := [], killDelivered := [] } := by
  simp [run, h]

theorem run_branch_nosig (env : Env) (g : Nat) (pol : Bool) {pids : List Nat}
    (h1 : pids.isEmpty = false)
    (h2 : (send_signal_to_all (env 0) pids Signal.term).isEmpty = true) :
    run env pids g pol =
      { exitCode := 2, active_pids := send_signal_to_all (env 0) pids Signal.term,
        remaining := [], loopEnd := 0, still_running := [], killDelivered := [] } := by
  simp [run, h1, h2]

theorem run_branch_coop (env : Env) (g : Nat) (pol : Bool) {pids : List Nat}
    (h1 : pids.isEmpty = false)
    (h2 : (send_signal_to_all (env 0) pids Signal.term).isEmpty = false)
    (h3 : ((pollLoop env g 0 (send_signal_to_all (env 0) pids Signal.term)).1).isEmpty = true) :
    run env pids g pol =
      { exitCode := 0, active_pids := send_signal_to_all (env 0) pids Signal.term,
        remaining := (pollLoop env g 0 (send_signal_to_all (env 0) pids Signal.term)).1,
        loopEnd := (pollLoop env g 0 (send_signal_to_all (env 0) pids Signal.term)).2,
        still_running := [], killDelivered := [] } := by
  simp [run, h1, h2, h3]

theorem run_branch_kill (env : Env) (g : Nat) (pol : Bool) {pids : List Nat}
    (h1 : pids.isEmpty = false)
    (h2 : (send_signal_to_all (env 0) pids Signal.term).isEmpty = false)
    (h3 : ((pollLoop env g 0 (send_signal_to_all (env 0) pids Signal.term)).1).isEmpty = false) :
    run env pids g pol =
      { exitCode := if pol then 3 else 0,
        active_pids := send_signal_to_all (env 0) pids Signal.term,
        remaining := (pollLoop env g 0 (send_signal_to_all (env 0) pids Signal.term)).1,
        loopEnd := (pollLoop env g 0 (send_signal_to_all (env 0) pids Signal.term)).2,
        still_running :=
          ((pollLoop env g 0 (send_signal_to_all (env 0) pids Signal.term)).1).filter
            (fun pid => is_process_running
              (env ((pollLoop env g 0 (send_signal_to_all (env 0) pids Signal.term)).2 + 1)) pid),
        killDelivered :=
          send_signal_to_all
            (env ((pollLoop env g 0 (send_signal_to_all (env 0) pids Signal.term)).2 + 2))
            (((pollLoop env g 0 (send_signal_to_all (env 0) pids Signal.term)).1).filter
              (fun pid => is_process_running
                (env ((pollLoop env g 0 (send_signal_to_all (env 0) pids Signal.term)).2 + 1)) pid))
            Signal.kill } := by
  simp [run, h1, h2, h3]

/-! Structural facts holding across all branches of `run`. -/

theorem run_still_eq_filter (env : Env) (pids : List Nat) (g : Nat) (pol : Bool) :
    (run env pids g pol).still_running =
      ((run env pids g pol).remaining).filter
        (fun pid => is_process_running (env ((run env pids g pol).loopEnd + 1)) pid) := by
  by_cases h1 : pids.isEmpty
  · rw [run_branch_empty env g pol h1]; rfl
  · rw [Bool.not_eq_true] at h1
    by_cases h2 : (send_signal_to_all (env 0) pids Signal.term).isEmpty
    · rw [run_branch_nosig env g pol h1 h2]; rfl
    · rw [Bool.not_eq_true] at h2
      by_cases h3 : ((pollLoop env g 0 (send_signal_to_all (env 0) pids Signal.term)).1).isEmpty
      · rw [run_branch_coop env g pol h1 h2 h3]
        simp only [List.isEmpty_iff.mp h3, List.filter_nil]
      · rw [Bool.not_eq_true] at h3
        rw [run_branch_kill env g pol h1 h2 h3]

theorem run_kill_eq_dispatch (env : Env) (pids : List Nat) (g : Nat) (pol : Bool) :
    (run env pids g pol).killDelivered =
      send_signal_to_all (env ((run env pids g pol).loopEnd + 2))
        ((run env pids g pol).still_running) Signal.kill := by
  by_cases h1 : pids.isEmpty
  · rw [run_branch_empty env g pol h1]; rfl
  · rw [Bool.not_eq_true] at h1
    by_cases h2 : (send_signal_to_all (env 0) pids Signal.term).isEmpty
    · rw [run_branch_nosig env g pol h1 h2]; rfl
    · rw [Bool.not_eq_true] at h2
      by_cases h3 : ((pollLoop env g 0 (send_signal_to_all (env 0) pids Signal.term)).1).isEmpty
      · rw [run_branch_coop env g pol h1 h2 h3]; rfl
      · rw [Bool.not_eq_true] at h3
        rw [run_branch_kill env g pol h1 h2 h3]

theorem run_remaining_sublist (env : Env) (pids : List Nat) (g : Nat) (pol : Bool) :
    ((run env pids g pol).remaining).Sublist ((run env pids g pol).active_pids) := by
  by_cases h1 : pids.isEmpty
  · rw [run_branch_empty env g pol h1]
  · rw [Bool.not_eq_true] at h1
    by_cases h2 : (send_signal_to_all (env 0) pids Signal.term).isEmpty
    · rw [run_branch_nosig env g pol h1 h2]; exact List.nil_sublist _
    · rw [Bool.not_eq_true] at h2
      by_cases h3 : ((pollLoop env g 0 (send_signal_to_all (env 0) pids Signal.term)).1).isEmpty
      · rw [run_branch_coop env g pol h1 h2 h3]
        exact pollLoop_sublist env g 0 _
      · rw [Bool.not_eq_true] at h3
        rw [run_branch_kill env g pol h1 h2 h3]
        exact pollLoop_sublist env g 0 _

theorem run_active_eq (env : Env) (pids : List Nat) (g : Nat) (pol : Bool)
    (h1 : pids.isEmpty = false) :
    (run env pids g pol).active_pids = send_signal_to_all (env 0) pids Signal.term := by
  by_cases h2 : (send_signal_to_all (env 0) pids Signal.term).isEmpty
  · rw [run_branch_nosig env g pol h1 h2]
  · rw [Bool.not_eq_true] at h2
    by_cases h3 : ((pollLoop env g 0 (send_signal_to_all (env 0) pids Signal.term)).1).isEmpty
    · rw [run_branch_coop env g pol h1 h2 h3]
    · rw [Bool.not_eq_true] at h3
      rw [run_branch_kill env g pol h1 h2 h3]

/-! Lemmas about pid validation and the OS-call trace. -/

theorem parse_and_validate_pid_ne_zero (s : String) :
    parse_and_validate_pid s ≠ Except.ok 0 := by
  unfold parse_and_validate_pid
  cases hp : parseUint u32Bound s with
  | none => simp
  | some n => cases n with
    | zero => simp
    | succ k => simp

theorem parse_pid_strs_nil (pids : List Nat) : parse_pid_strs pids [] = Except.ok pids := rfl

theorem parse_pid_strs_cons (pids : List Nat) (s : String) (rest : List String) :
    parse_pid_strs pids (s :: rest) =
      (match parse_and_validate_pid s with
       | Except.ok pid => parse_pid_strs (pids ++ [pid]) rest
       | Except.error e => Except.error e) := rfl

theorem parse_args_loop_nil (fuel : Nat) (pids : List Nat) (grace : Nat) (flag : Bool) :
    parse_args_loop fuel pids grace flag [] = Except.ok (pids, grace, flag) := by
  cases fuel <;> rfl

theorem parse_args_loop_cons (fuel : Nat) (pids : List Nat) (grace : Nat) (flag : Bool)
    (arg : String) (rest : List String) :
    parse_args_loop (fuel + 1) pids grace flag (arg :: rest) =
      (if arg = "-g" ∨ arg = "--grace-seconds" then
        match rest with
        | [] => Except.error "Missing value for grace-seconds"
        | v :: rest2 =>
          match parseUint u64Bound v with
          | some n => parse_args_loop fuel pids n flag rest2
          | none => Except.error ("Invalid grace-seconds value: " ++ v)
      else if strStartsWith arg "--grace-seconds=" then
        match parseUint u64Bound (strDrop arg 16) with
        | some n => parse_args_loop fuel pids n flag rest
        | none => Except.error ("Invalid grace-seconds value: " ++ strDrop arg 16)
      else if arg = "--exit-non-zero-if-sigkill-required" then
        parse_args_loop fuel pids grace true rest
      else if strStartsWith arg "-" then
        Except.error ("Unknown option: " ++ arg)
      else
        match parse_pid_strs pids (parse_pid_arg arg) with
        | Except.ok pids2 => parse_args_loop fuel pids2 grace flag rest
        | Except.error e => Except.error e) := rfl

theorem parse_pid_strs_no_zero :
    ∀ ss pids out, 0 ∉ pids → parse_pid_strs pids ss = Except.ok out → 0 ∉ out := by
  intro ss
  induction ss with
  | nil =>
    intro pids out h0 h
    rw [parse_pid_strs_nil] at h
    injection h with h
    subst h
    exact h0
  | cons s rest ih =>
    intro pids out h0 h
    rw [parse_pid_strs_cons] at h
    cases hp : parse_and_validate_pid s with
    | error e => rw [hp] at h; simp at h
    | ok pid =>
      rw [hp] at h
      refine ih (pids ++ [pid]) out ?_ h
      intro hc
      rcases List.mem_append.mp hc with hc | hc
      · exact h0 hc
      · have hz : (0 : Nat) = pid := by simpa using hc
        subst hz
        exact parse_and_validate_pid_ne_zero s hp

theorem parse_args_loop_no_zero :
    ∀ fuel args pids grace flag out,
      0 ∉ pids → parse_args_loop fuel pids grace flag args = Except.ok out → 0 ∉ out.1 := by
  intro fuel
  induction fuel with
  | zero =>
    intro args pids grace flag out h0 h
    cases args with
    | nil =>
      rw [parse_args_loop_nil] at h
      injection h with h
      subst h
      exact h0
    | cons arg rest =>
      have he : parse_args_loop 0 pids grace flag (arg :: rest) =
          Except.ok (pids, grace, flag) := rfl
      rw [he] at h
      injection h with h
      subst h
      exact h0
  | succ n ih =>
    intro args pids grace flag out h0 h
    cases args with
    | nil =>
      rw [parse_args_loop_nil] at h
      injection h with h
      subst h
      exact h0
    | cons arg rest =>
      rw [parse_args_loop_cons] at h
      by_cases hA : arg = "-g" ∨ arg = "--grace-seconds"
      · rw [if_pos hA] at h
        split at h
        · simp at h
        · rename_i v rest2
          split at h
          · rename_i gv hv
            exact ih rest2 pids gv flag out h0 h
          · simp at h
      · rw [if_neg hA] at h
        by_cases hB : strStartsWith arg "--grace-seconds="
        · rw [if_pos hB] at h
          cases hv : parseUint u64Bound (strDrop arg 16) with
          | none => rw [hv] at h; simp at h
          | some gv =>
            rw [hv] at h
            exact ih rest pids gv flag out h0 h
        · rw [if_neg hB] at h
          by_cases hC : arg = "--exit-non-zero-if-sigkill-required"
          · rw [if_pos hC] at h
            exact ih rest pids grace true out h0 h
          · rw [if_neg hC] at h
            by_cases hD : strStartsWith arg "-"
            · rw [if_pos hD] at h; simp at h
            · rw [if_neg hD] at h
              cases hp : parse_pid_strs pids (parse_pid_arg arg) with
              | error e => rw [hp] at h; simp at h
              | ok pids2 =>
                rw [hp] at h
                exact ih rest pids2 grace flag out
                  (parse_pid_strs_no_zero (parse_pid_arg arg) pids pids2 h0 hp) h

theorem parse_args_no_zero {args : List String} {out : List Nat × Nat × Bool}
    (h : parse_args args = Except.ok out) : 0 ∉ out.1 :=
  parse_args_loop_no_zero args.length args [] DEFAULT_GRACE_SECONDS false out (by simp) h


theorem runCalls_subset (env : Env) (pids : List Nat) (g : Nat) {p : Nat}
    (h : p ∈ runCalls env pids g) : p ∈ pids := by
  have hAct : ∀ q, q ∈ send_signal_to_all (env 0) pids Signal.term → q ∈ pids :=
    fun q hq => send_signal_to_all_subset hq
  have hRem : ∀ q, q ∈ (pollLoop env g 0 (send_signal_to_all (env 0) pids Signal.term)).1 →
      q ∈ pids :=
    fun q hq => hAct q ((pollLoop_sublist env g 0 _).subset hq)
  by_cases h1 : pids.isEmpty
  · simp [runCalls, h1] at h
  · by_cases h2 : (send_signal_to_all (env 0) pids Signal.term).isEmpty
    · simp only [runCalls, h1, h2, Bool.false_eq_true, if_false, if_true, List.append_nil,
        List.mem_append] at h
      exact send_signal_to_all_calls_subset h
    · by_cases h3 : ((pollLoop env g 0 (send_signal_to_all (env 0) pids Signal.term)).1).isEmpty
      · simp only [runCalls, h1, h2, h3, Bool.false_eq_true, if_false, if_true, List.append_nil,
          List.mem_append] at h
        rcases h with h | h
        · exact send_signal_to_all_calls_subset h
        · exact hAct p (pollLoopCalls_subset env g 0 _ p h)
      · simp only [runCalls, h1, h2, h3, Bool.false_eq_true, if_false, List.mem_append] at h
        rcases h with h | h | h | h
        · exact send_signal_to_all_calls_subset h
        · exact hAct p (pollLoopCalls_subset env g 0 _ p h)
        · exact hRem p (List.mem_filter.mp h).1
        · exact hRem p (List.mem_filter.mp (send_signal_to_all_calls_subset h)).1

/-! Further structural facts about `run` feeding the claim theorems. -/

theorem run_active_mem (env : Env) (pids : List Nat) (g : Nat) (pol : Bool) {p : Nat}
    (h : p ∈ (run env pids g pol).active_pids) :
    isDelivered (send_signal (env 0) p Signal.term) = true := by
  by_cases h1 : pids.isEmpty
  · rw [run_branch_empty env g pol h1] at h
    simp at h
  · rw [Bool.not_eq_true] at h1
    rw [run_active_eq env pids g pol h1] at h
    exact (List.mem_filter.mp h).2

theorem run_exit3_iff (env : Env) (pids : List Nat) (g : Nat) (pol : Bool) :
    (run env pids g pol).exitCode = 3 ↔
      pol = true ∧ (run env pids g pol).remaining ≠ [] := by
  by_cases h1 : pids.isEmpty
  · rw [run_branch_empty env g pol h1]
    simp
  · rw [Bool.not_eq_true] at h1
    by_cases h2 : (send_signal_to_all (env 0) pids Signal.term).isEmpty
    · rw [run_branch_nosig env g pol h1 h2]
      simp
    · rw [Bool.not_eq_true] at h2
      by_cases h3 : ((pollLoop env g 0 (send_signal_to_all (env 0) pids Signal.term)).1).isEmpty
      · rw [run_branch_coop env g pol h1 h2 h3]
        simp [List.isEmpty_iff.mp h3]
      · rw [Bool.not_eq_true] at h3
        rw [run_branch_kill env g pol h1 h2 h3]
        have hne : (pollLoop env g 0 (send_signal_to_all (env 0) pids Signal.term)).1 ≠ [] := by
          intro hc
          rw [hc] at h3
          simp at h3
        cases pol <;> simp [hne]

theorem run_policy_indep (env : Env) (pids : List Nat) (g : Nat) :
    (run env pids g true).remaining = (run env pids g false).remaining ∧
    (run env pids g true).still_running = (run env pids g false).still_running ∧
    (run env pids g true).killDelivered = (run env pids g false).killDelivered := by
  by_cases h1 : pids.isEmpty
  · rw [run_branch_empty env g true h1, run_branch_empty env g false h1]
    exact ⟨rfl, rfl, rfl⟩
  · rw [Bool.not_eq_true] at h1
    by_cases h2 : (send_signal_to_all (env 0) pids Signal.term).isEmpty
    · rw [run_branch_nosig env g true h1 h2, run_branch_nosig env g false h1 h2]
      exact ⟨rfl, rfl, rfl⟩
    · rw [Bool.not_eq_true] at h2
      by_cases h3 : ((pollLoop env g 0 (send_signal_to_all (env 0) pids Signal.term)).1).isEmpty
      · rw [run_branch_coop env g true h1 h2 h3, run_branch_coop env g false h1 h2 h3]
        exact ⟨rfl, rfl, rfl⟩
      · rw [Bool.not_eq_true] at h3
        rw [run_branch_kill env g true h1 h2 h3, run_branch_kill env g false h1 h2 h3]
        exact ⟨rfl, rfl, rfl⟩

theorem run_kill_ne_nil (env : Env) (pids : List Nat) (g : Nat) (pol : Bool)
    (h : (run env pids g pol).killDelivered ≠ []) :
    (run env pids g pol).remaining ≠ [] := by
  intro hc
  apply h
  rw [run_kill_eq_dispatch env pids g pol, run_still_eq_filter env pids g pol, hc]
  rfl

theorem run_exit_of_kill_branch (env : Env) (pids : List Nat) (g : Nat) (pol : Bool)
    (h : (run env pids g pol).killDelivered ≠ []) :
    (run env pids g pol).exitCode = if pol then 3 else 0 := by
  by_cases h1 : pids.isEmpty
  · rw [run_branch_empty env g pol h1] at h
    simp at h
  · rw [Bool.not_eq_true] at h1
    by_cases h2 : (send_signal_to_all (env 0) pids Signal.term).isEmpty
    · rw [run_branch_nosig env g pol h1 h2] at h
      simp at h
    · rw [Bool.not_eq_true] at h2
      by_cases h3 : ((pollLoop env g 0 (send_signal_to_all (env 0) pids Signal.term)).1).isEmpty
      · rw [run_branch_coop env g pol h1 h2 h3] at h
        simp at h
      · rw [Bool.not_eq_true] at h3
        rw [run_branch_kill env g pol h1 h2 h3]

theorem run_exit0_policy_off (env : Env) (pids : List Nat) (g : Nat)
    (h1 : pids.isEmpty = false)
    (h2 : (send_signal_to_all (env 0) pids Signal.term).isEmpty = false) :
    (run env pids g false).exitCode = 0 := by
  by_cases h3 : ((pollLoop env g 0 (send_signal_to_all (env 0) pids Signal.term)).1).isEmpty
  · rw [run_branch_coop env g false h1 h2 h3]
  · rw [Bool.not_eq_true] at h3
    rw [run_branch_kill env g false h1 h2 h3]
    rfl

/-! Claim theorems. -/

/-- C1, counterexample: with an oracle answering EPERM for pid 1, real
dispatch classifies the failure as PermissionDenied (not NotFound), yet
the liveness probe `is_process_running` reports the process as not
running, i.e. interprets the permission error as "process has exited";
the probe the spec describes (sharing dispatch's classification, exited
only on NotFound) would report it as still existing.  This refutes the
claim that a probed process is classified as exited exactly when the
underlying error is NotFound. -/
theorem C1_counterexample :
    is_process_running (fun _ => KillResult.eperm) 1 = false ∧
    ((fun _ => KillResult.eperm : Os) 1 ≠ KillResult.esrch) ∧
    send_signal (fun _ => KillResult.eperm) 1 Signal.term = Except.error "Permission denied" ∧
    is_running_specModel (fun _ => KillResult.eperm) 1 = true :=
  ⟨rfl, by decide, rfl, rfl⟩

/-- C1, amended: the liveness probe shares the identifier-range
validation with real dispatch (out-of-range pids never reach the OS)
but not its error classification: it reports a process as still
existing exactly when the probe call succeeds, and as exited on any
probe failure whatsoever — NotFound, PermissionDenied or other — as
well as for out-of-range identifiers. -/
theorem C1_probe_semantics (os : Os) (pid : Nat) :
    (is_process_running os pid = true ↔ pid ≤ i32Max ∧ os pid = KillResult.ok) ∧
    (is_process_running os pid = false ↔ i32Max < pid ∨ os pid ≠ KillResult.ok) := by
  unfold is_process_running
  by_cases h : pid ≤ i32Max
  · have h2 : ¬ i32Max < pid := Nat.not_lt.mpr h
    rw [if_pos h]
    cases hos : os pid <;> simp [h, h2, hos]
  · have h2 : i32Max < pid := Nat.not_le.mp h
    rw [if_neg h]
    simp [h, h2]

/-- C7: a single dispatch attempt is total and classifies the expected
failure classes by errno — ESRCH as "Process not found", EPERM as
"Permission denied", anything else as a failure message that preserves
the raw error text; a pid above the platform's i32 range is rejected
before any OS call (the call trace for it is empty), the rejection is a
per-target error value rather than an abort, and the batch dispatcher
simply skips such a target and continues. -/
theorem C7_dispatch_classification (os : Os) (pid : Nat) (signal : Signal) (msg : String)
    (rest : List Nat) :
    (pid ≤ i32Max →
      ((send_signal os pid signal = Except.ok () ↔ os pid = KillResult.ok) ∧
       (send_signal os pid signal = Except.error "Process not found" ↔
         os pid = KillResult.esrch) ∧
       (send_signal os pid signal = Except.error "Permission denied" ↔
         os pid = KillResult.eperm) ∧
       (os pid = KillResult.other msg →
         send_signal os pid signal = Except.error ("Failed to send signal: " ++ msg)))) ∧
    (i32Max < pid →
      (send_signal os pid signal = Except.error "PID too large for system" ∧
       send_signal_to_all_calls [pid] = [] ∧
       send_signal_to_all os (pid :: rest) signal = send_signal_to_all os rest signal)) := by
  constructor
  · intro hle
    unfold send_signal
    rw [if_pos hle]
    have hlen : ∀ m : String, ¬("Failed to send signal: " ++ m = "Process not found") := by
      intro m hc
      have := congrArg String.length hc
      rw [String.length_append] at this
      have h23 : ("Failed to send signal: ").length = 23 := rfl
      have h17 : ("Process not found").length = 17 := rfl
      omega
    have hlen2 : ∀ m : String, ¬("Failed to send signal: " ++ m = "Permission denied") := by
      intro m hc
      have := congrArg String.length hc
      rw [String.length_append] at this
      have h23 : ("Failed to send signal: ").length = 23 := rfl
      have h17 : ("Permission denied").length = 17 := rfl
      omega
    cases hos : os pid with
    | ok => simp [hos]; try decide
    | esrch => simp [hos]; try decide
    | eperm => simp [hos]; try decide
    | other a =>
      simp [hos, hlen, hlen2]
      try (intro h; rw [h])
  · intro hlt
    have hn : ¬ pid ≤ i32Max := Nat.not_le.mpr hlt
    refine ⟨?_, ?_, ?_⟩
    · unfold send_signal
      rw [if_neg hn]
    · simp [send_signal_to_all_calls, List.filter_cons, hn]
    · simp [send_signal_to_all, List.filter_cons, send_signal, hn, isDelivered]

/-- C7, witness: for pid 1 (in range) and an oracle answering ESRCH,
the dispatch outcome is exactly the NotFound classification. -/
theorem C7_witness :
    (1 : Nat) ≤ i32Max ∧
      (send_signal (fun _ => KillResult.esrch) 1 Signal.term = Except.error "Process not found" ↔
        (fun _ => KillResult.esrch : Os) 1 = KillResult.esrch) :=
  ⟨by decide,
   ((C7_dispatch_classification (fun _ => KillResult.esrch) 1 Signal.term "x" []).1
     (by decide)).2.1⟩

/-- C5: the poll loop exits exactly when the survivor list is empty or
the deadline fuel is exhausted, whichever is first (the exit tick never
exceeds the deadline, and if survivors remain at exit the full deadline
elapsed); and a pid is in the final survivor list precisely when it was
a survivor at entry and every liveness probe on it up to the exit tick
reported it still running — i.e. a survivor is removed (as a
cooperative exit) exactly when its probe reports it no longer
running. -/
theorem C5_poll_loop_contract (env : Env) (fuel t : Nat) (rem : List Nat) (p : Nat) :
    (t ≤ (pollLoop env fuel t rem).2 ∧ (pollLoop env fuel t rem).2 ≤ t + fuel) ∧
    ((pollLoop env fuel t rem).1 = [] ∨ (pollLoop env fuel t rem).2 = t + fuel) ∧
    (p ∈ (pollLoop env fuel t rem).1 ↔
      p ∈ rem ∧ ∀ i, t < i → i ≤ (pollLoop env fuel t rem).2 →
        is_process_running (env i) p = true) :=
  ⟨⟨pollLoop_time_le env fuel t rem, pollLoop_time_ub env fuel t rem⟩,
   pollLoop_empty_or_deadline env fuel t rem,
   pollLoop_mem env p fuel t rem⟩

/-- C8: the survivor set only shrinks — each poll tick produces a
sublist of the previous survivors, the whole poll loop returns a
sublist of its input, the post-loop survivors are a sublist of the
initially signalled pids, the pre-SIGKILL re-check keeps a sublist of
the post-loop survivors, and the successfully SIGKILLed pids are a
sublist of those; consequently a pid once absent from the survivor set
never reappears later in the run. -/
theorem C8_survivors_monotone (env : Env) (fuel t : Nat) (rem : List Nat)
    (pids : List Nat) (g : Nat) (pol : Bool) (p : Nat) :
    (pollTick env t rem).Sublist rem ∧
    ((pollLoop env fuel t rem).1).Sublist rem ∧
    ((run env pids g pol).remaining).Sublist ((run env pids g pol).active_pids) ∧
    ((run env pids g pol).still_running).Sublist ((run env pids g pol).remaining) ∧
    ((run env pids g pol).killDelivered).Sublist ((run env pids g pol).still_running) ∧
    (p ∉ rem → p ∉ (pollLoop env fuel t rem).1) ∧
    (p ∉ (run env pids g pol).remaining → p ∉ (run env pids g pol).still_running) := by
  refine ⟨pollTick_sublist env t rem, pollLoop_sublist env fuel t rem,
    run_remaining_sublist env pids g pol, ?_, ?_, ?_, ?_⟩
  · rw [run_still_eq_filter env pids g pol]
    exact List.filter_sublist _
  · rw [run_kill_eq_dispatch env pids g pol]
    exact List.filter_sublist _
  · intro hn hm
    exact hn ((pollLoop_sublist env fuel t rem).subset hm)
  · intro hn hm
    rw [run_still_eq_filter env pids g pol] at hm
    exact hn (List.mem_filter.mp hm).1

/-- C8, witness: a pid absent from the input survivor list (9) stays
absent from the loop result and from the re-checked survivor list. -/
theorem C8_witness :
    (9 ∉ [7] ∧ 9 ∉ (pollLoop envOk 0 0 [7]).1) ∧
    (9 ∉ (run envOk [1] 0 false).remaining ∧ 9 ∉ (run envOk [1] 0 false).still_running) :=
  ⟨⟨by decide, (C8_survivors_monotone envOk 0 0 [7] [1] 0 false 9).2.2.2.2.2.1 (by decide)⟩,
   ⟨by decide, (C8_survivors_monotone envOk 0 0 [7] [1] 0 false 9).2.2.2.2.2.2 (by decide)⟩⟩

/-- C4: the initial survivor set is exactly the list of targets whose
cooperative (SIGTERM) dispatch outcome was Delivered, in order; a
target whose cooperative dispatch failed (NotFound, PermissionDenied or
any other failure, i.e. whose outcome is not Delivered) never reaches
the forceful-dispatch list and is never successfully SIGKILLed later in
the run. -/
theorem C4_initial_survivor_set (env : Env) (pids : List Nat) (g : Nat) (pol : Bool) (p : Nat) :
    (pids.isEmpty = false →
      (run env pids g pol).active_pids =
        pids.filter (fun q => isDelivered (send_signal (env 0) q Signal.term))) ∧
    (isDelivered (send_signal (env 0) p Signal.term) = false →
      p ∉ (run env pids g pol).still_running ∧ p ∉ (run env pids g pol).killDelivered) := by
  constructor
  · intro h1
    rw [run_active_eq env pids g pol h1]
    rfl
  · intro hf
    have hstill : p ∉ (run env pids g pol).still_running := by
      intro hs
      have hrem : p ∈ (run env pids g pol).remaining := by
        rw [run_still_eq_filter env pids g pol] at hs
        exact (List.mem_filter.mp hs).1
      have hact := (run_remaining_sublist env pids g pol).subset hrem
      have hdel := run_active_mem env pids g pol hact
      rw [hf] at hdel
      exact Bool.false_ne_true hdel
    refine ⟨hstill, fun hk => ?_⟩
    rw [run_kill_eq_dispatch env pids g pol] at hk
    exact hstill (send_signal_to_all_subset hk)

/-- C4, witness: with an oracle refusing pid 2 (EPERM), the initial
survivor set of the run over [1, 2] is the Delivered filter, and pid 2
is neither in the forceful-dispatch list nor among the SIGKILLed. -/
theorem C4_witness :
    ((List.isEmpty [1, 2] = false) ∧
      (run envPerm [1, 2] 0 false).active_pids =
        List.filter (fun q => isDelivered (send_signal (envPerm 0) q Signal.term)) [1, 2]) ∧
    (isDelivered (send_signal (envPerm 0) 2 Signal.term) = false ∧
      2 ∉ (run envPerm [1, 2] 0 false).still_running ∧
      2 ∉ (run envPerm [1, 2] 0 false).killDelivered) :=
  ⟨⟨rfl, (C4_initial_survivor_set envPerm [1, 2] 0 false 2).1 rfl⟩,
   ⟨rfl, (C4_initial_survivor_set envPerm [1, 2] 0 false 2).2 rfl⟩⟩

/-- C3: immediately before the forceful dispatch, every survivor of the
poll loop is probed once more — the forceful-dispatch list is exactly
the post-loop survivors filtered by that final probe; every pid on the
forceful-dispatch list was reported alive by the final re-check, and a
survivor the re-check reports as exited is dropped: it is neither
forcefully dispatched to nor recorded as force-killed. -/
theorem C3_final_recheck (env : Env) (pids : List Nat) (g : Nat) (pol : Bool) (p : Nat) :
    ((run env pids g pol).still_running =
      ((run env pids g pol).remaining).filter
        (fun q => is_process_running (env ((run env pids g pol).loopEnd + 1)) q)) ∧
    (p ∈ (run env pids g pol).still_running →
      is_process_running (env ((run env pids g pol).loopEnd + 1)) p = true) ∧
    (p ∈ (run env pids g pol).remaining →
      is_process_running (env ((run env pids g pol).loopEnd + 1)) p = false →
      p ∉ (run env pids g pol).still_running ∧ p ∉ (run env pids g pol).killDelivered) := by
  refine ⟨run_still_eq_filter env pids g pol, ?_, ?_⟩
  · intro hs
    rw [run_still_eq_filter env pids g pol] at hs
    exact (List.mem_filter.mp hs).2
  · intro hr hf
    have hstill : p ∉ (run env pids g pol).still_running := by
      intro hs
      rw [run_still_eq_filter env pids g pol] at hs
      have := (List.mem_filter.mp hs).2
      rw [hf] at this
      exact Bool.false_ne_true this
    refine ⟨hstill, fun hk => ?_⟩
    rw [run_kill_eq_dispatch env pids g pol] at hk
    exact hstill (send_signal_to_all_subset hk)

/-- C3, witness: pid 1 survives to the deadline under an always-alive
oracle, is on the forceful-dispatch list, and the final re-check indeed
reported it alive. -/
theorem C3_witness :
    1 ∈ (run envOk [1] 1 false).still_running ∧
    is_process_running (envOk ((run envOk [1] 1 false).loopEnd + 1)) 1 = true :=
  ⟨by decide, (C3_final_recheck envOk [1] 1 false 1).2.1 (by decide)⟩

/-- C2, counterexample: with a target that stays alive through the
whole grace period but exits in the gap before the pre-SIGKILL
re-check, the run dispatches no forceful signal at all (the re-checked
survivor list and the SIGKILLed list are both empty), yet with the
escalation policy enabled the exit status is still 3.  This refutes "3
if and only if at least one target actually required forceful
termination": status 3 is decided by survivors at the deadline, not by
actual forceful termination. -/
theorem C2_counterexample :
    (run envLateExit [1] 1 true).exitCode = 3 ∧
    (run envLateExit [1] 1 true).still_running = [] ∧
    (run envLateExit [1] 1 true).killDelivered = [] ∧
    (run envLateExit [1] 1 true).remaining = [1] := by
  refine ⟨rfl, rfl, rfl, rfl⟩

/-- C2, amended: the exit status is 2 when targets were supplied but
none could be signaled; 0 when the cooperatively-signaled set emptied
before the deadline; 0 whenever the escalation policy is disabled and
any target was signaled, whatever happened afterwards (in particular in
the forceful branch); and 3 exactly when the policy is enabled AND the
poll loop ended with a nonempty survivor set — even if the final
re-check then drops every survivor and nothing is forcefully signaled.
The policy flag affects only the status: the survivor lists and SIGKILL
outcomes are identical with it on or off, so for identical run outcomes
with at least one forced target the status is literally `if policy then
3 else 0` — 3 with the policy enabled and 0 with it disabled. -/
theorem C2_exit_status (env : Env) (pids : List Nat) (g : Nat) (pol : Bool) :
    ((run env pids g pol).exitCode = 3 ↔
      pol = true ∧ (run env pids g pol).remaining ≠ []) ∧
    (pids.isEmpty = false → (send_signal_to_all (env 0) pids Signal.term).isEmpty = true →
      (run env pids g pol).exitCode = 2) ∧
    (pids.isEmpty = false → (send_signal_to_all (env 0) pids Signal.term).isEmpty = false →
      (run env pids g pol).remaining = [] → (run env pids g pol).exitCode = 0) ∧
    (pids.isEmpty = false → (send_signal_to_all (env 0) pids Signal.term).isEmpty = false →
      (run env pids g false).exitCode = 0) ∧
    ((run env pids g true).remaining = (run env pids g false).remaining ∧
     (run env pids g true).still_running = (run env pids g false).still_running ∧
     (run env pids g true).killDelivered = (run env pids g false).killDelivered) ∧
    ((run env pids g pol).killDelivered ≠ [] →
      (((run env pids g pol).exitCode = 3 ↔ pol = true) ∧
       (run env pids g pol).exitCode = if pol then 3 else 0)) := by
  refine ⟨run_exit3_iff env pids g pol, ?_, ?_,
    fun h1 h2 => run_exit0_policy_off env pids g h1 h2, run_policy_indep env pids g, ?_⟩
  · intro h1 h2
    rw [run_branch_nosig env g pol h1 h2]
  · intro h1 h2 hrem
    by_cases h3 : ((pollLoop env g 0 (send_signal_to_all (env 0) pids Signal.term)).1).isEmpty
    · rw [run_branch_coop env g pol h1 h2 h3]
    · rw [Bool.not_eq_true] at h3
      have hr2 : (run env pids g pol).remaining =
          (pollLoop env g 0 (send_signal_to_all (env 0) pids Signal.term)).1 := by
        rw [run_branch_kill env g pol h1 h2 h3]
      rw [hr2] at hrem
      rw [hrem] at h3
      simp at h3
  · intro hk
    refine ⟨?_, run_exit_of_kill_branch env pids g pol hk⟩
    have hrem := run_kill_ne_nil env pids g pol hk
    rw [run_exit3_iff env pids g pol]
    simp [hrem]

/-- C2, witness: an always-alive oracle over [1] forces pid 1 (SIGKILL
delivered, nonempty forced set); with the policy enabled the status is
3, and with the same oracle and the policy disabled the status is 0;
with a target that exits during the grace period and the policy off the
status is also 0; an all-ESRCH oracle over [1] signals nothing and
exits 2. -/
theorem C2_witness :
    ((run envOk [1] 1 true).killDelivered ≠ [] ∧
      ((run envOk [1] 1 true).exitCode = 3 ↔ true = true)) ∧
    ((run envOk [1] 1 false).killDelivered ≠ [] ∧
      (run envOk [1] 1 false).exitCode = 0) ∧
    (List.isEmpty [1] = false ∧
      (send_signal_to_all (envOk 0) [1] Signal.term).isEmpty = false ∧
      (run envOk [1] 7 false).exitCode = 0) ∧
    ((run envLateExit [1] 5 false).remaining = [] ∧
      (run envLateExit [1] 5 false).exitCode = 0) ∧
    (List.isEmpty [1] = false ∧
      (send_signal_to_all (envDead 0) [1] Signal.term).isEmpty = true ∧
      (run envDead [1] 5 false).exitCode = 2) :=
  ⟨⟨by decide, ((C2_exit_status envOk [1] 1 true).2.2.2.2.2 (by decide)).1⟩,
   ⟨by decide, ((C2_exit_status envOk [1] 1 false).2.2.2.2.2 (by decide)).2.trans rfl⟩,
   ⟨rfl, rfl, (C2_exit_status envOk [1] 7 false).2.2.2.1 rfl rfl⟩,
   ⟨by decide, (C2_exit_status envLateExit [1] 5 false).2.2.1 rfl rfl (by decide)⟩,
   ⟨rfl, rfl, (C2_exit_status envDead [1] 5 false).2.1 rfl rfl⟩⟩

/-- C9: an empty target list is rejected up front with exit status 1 —
no OS call of any kind is made — while a nonempty list none of whose
targets could be signaled produces exit status 2, a distinct status. -/
theorem C9_empty_target_set (env : Env) (g : Nat) (pol : Bool) (pids : List Nat) :
    ((run env [] g pol).exitCode = 1 ∧ runCalls env [] g = []) ∧
    (pids ≠ [] → send_signal_to_all (env 0) pids Signal.term = [] →
      (run env pids g pol).exitCode = 2) := by
  constructor
  · constructor
    · rw [run_branch_empty env g pol List.isEmpty_nil]
    · simp [runCalls]
  · intro hne hsig
    have h1 : pids.isEmpty = false := by
      cases pids with
      | nil => exact absurd rfl hne
      | cons a l => rfl
    have h2 : (send_signal_to_all (env 0) pids Signal.term).isEmpty = true := by
      rw [hsig]
      rfl
    rw [run_branch_nosig env g pol h1 h2]

/-- C9, witness: the empty run exits 1 with no OS calls; a run over [5]
against an all-ESRCH oracle signals nothing and exits 2. -/
theorem C9_witness :
    ((run envOk [] 0 false).exitCode = 1 ∧ runCalls envOk [] 0 = []) ∧
    ([5] ≠ ([] : List Nat) ∧
      send_signal_to_all (envDead 0) [5] Signal.term = [] ∧
      (run envDead [5] 0 false).exitCode = 2) :=
  ⟨(C9_empty_target_set envOk 0 false [5]).1,
   ⟨by decide, rfl, (C9_empty_target_set envDead 0 false [5]).2 (by decide) rfl⟩⟩

/-- C10: a grace of zero seconds is accepted by the argument parser
("-g 0"), and since `start.elapsed() < 0` is false at its first check,
the poll loop runs zero iterations: no poll probes happen, the
post-loop survivors are exactly the cooperatively-signaled targets, and
the forceful-dispatch list is those targets filtered by the single
pre-SIGKILL liveness re-check — every delivered target still alive at
that re-check is forcefully dispatched to. -/
theorem C10_zero_grace (env : Env) (pids : List Nat) (pol : Bool) (p : Nat) :
    parse_args ["-g", "0", "1234"] = Except.ok ([1234], 0, false) ∧
    (run env pids 0 pol).remaining = (run env pids 0 pol).active_pids ∧
    (run env pids 0 pol).loopEnd = 0 ∧
    pollLoopCalls env 0 0 ((run env pids 0 pol).active_pids) = [] ∧
    (run env pids 0 pol).still_running =
      ((run env pids 0 pol).active_pids).filter (fun q => is_process_running (env 1) q) ∧
    (p ∈ (run env pids 0 pol).active_pids → is_process_running (env 1) p = true →
      p ∈ (run env pids 0 pol).still_running) := by
  have hrem : (run env pids 0 pol).remaining = (run env pids 0 pol).active_pids := by
    by_cases h1 : pids.isEmpty
    · rw [run_branch_empty env 0 pol h1]
    · rw [Bool.not_eq_true] at h1
      by_cases h2 : (send_signal_to_all (env 0) pids Signal.term).isEmpty
      · rw [run_branch_nosig env 0 pol h1 h2]
        exact (List.isEmpty_iff.mp h2).symm
      · rw [Bool.not_eq_true] at h2
        by_cases h3 : ((pollLoop env 0 0 (send_signal_to_all (env 0) pids Signal.term)).1).isEmpty
        · rw [run_branch_coop env 0 pol h1 h2 h3]
          rfl
        · rw [Bool.not_eq_true] at h3
          rw [run_branch_kill env 0 pol h1 h2 h3]
          rfl
  have hend : (run env pids 0 pol).loopEnd = 0 := by
    by_cases h1 : pids.isEmpty
    · rw [run_branch_empty env 0 pol h1]
    · rw [Bool.not_eq_true] at h1
      by_cases h2 : (send_signal_to_all (env 0) pids Signal.term).isEmpty
      · rw [run_branch_nosig env 0 pol h1 h2]
      · rw [Bool.not_eq_true] at h2
        by_cases h3 : ((pollLoop env 0 0 (send_signal_to_all (env 0) pids Signal.term)).1).isEmpty
        · rw [run_branch_coop env 0 pol h1 h2 h3]
          rfl
        · rw [Bool.not_eq_true] at h3
          rw [run_branch_kill env 0 pol h1 h2 h3]
          rfl
  have hstill : (run env pids 0 pol).still_running =
      ((run env pids 0 pol).active_pids).filter (fun q => is_process_running (env 1) q) := by
    rw [run_still_eq_filter env pids 0 pol, hrem, hend]
  refine ⟨rfl, hrem, hend, rfl, hstill, ?_⟩
  intro hp hprobe
  rw [hstill]
  exact List.mem_filter.mpr ⟨hp, hprobe⟩

/-- C10, witness: grace 0 parses, and under an always-alive oracle the
single delivered target 1234 is still alive at the re-check and lands
on the forceful-dispatch list without any poll iteration. -/
theorem C10_witness :
    parse_args ["-g", "0", "1234"] = Except.ok ([1234], 0, false) ∧
    (1234 ∈ (run envOk [1234] 0 false).active_pids ∧
      is_process_running (envOk 1) 1234 = true ∧
      1234 ∈ (run envOk [1234] 0 false).still_running) :=
  ⟨(C10_zero_grace envOk [1234] false 1234).1,
   ⟨by decide, rfl, (C10_zero_grace envOk [1234] false 1234).2.2.2.2.2 (by decide) rfl⟩⟩

/-- C6: the identifier 0 is rejected during validation (the validator
never returns pid 0, whatever the input string), so any successfully
parsed argument list contains no zero pid; and a run over a zero-free
pid list never forwards 0 to the OS signal primitive — 0 is not among
the pids of any OS call the run performs. -/
theorem C6_zero_pid_rejected (s : String) (args : List String) (env : Env) (g : Nat)
    (pids : List Nat) (grace : Nat) (flag : Bool) :
    parse_and_validate_pid s ≠ Except.ok 0 ∧
    (parse_args args = Except.ok (pids, grace, flag) →
      0 ∉ pids ∧ 0 ∉ runCalls env pids g) := by
  refine ⟨parse_and_validate_pid_ne_zero s, fun h => ?_⟩
  have h0 : 0 ∉ pids := parse_args_no_zero h
  exact ⟨h0, fun hc => h0 (runCalls_subset env pids g hc)⟩

/-- C6, witness: the string "0" is rejected, ["1234"] parses to a
zero-free pid list, and the resulting run's OS-call trace contains no
zero pid. -/
theorem C6_witness :
    parse_and_validate_pid "0" ≠ Except.ok 0 ∧
    (parse_args ["1234"] = Except.ok ([1234], 25, false) ∧
      0 ∉ [1234] ∧ 0 ∉ runCalls envOk [1234] 0) :=
  ⟨(C6_zero_pid_rejected "0" ["1234"] envOk 0 [1234] 25 false).1,
   ⟨rfl, (C6_zero_pid_rejected "0" ["1234"] envOk 0 [1234] 25 false).2 rfl⟩⟩

end Gracekill
